import Mathlib

/-
Verification development for the relay service in src/main.py.

The Python module is embedded shallowly:
  - Python dicts become association lists with first-match lookup
    (alookup), in-place update for a present key and append for an
    absent key (aset), and key deletion (adel).
  - The JSON store file database.json becomes the structure DB for the
    well-typed case, and the inductive JVal for the raw persistence
    layer where the file may hold arbitrary JSON.
  - WebSocket handles become natural-number connection identifiers;
    network effects (accept, send, close) are reified as action lists.
  - Fallible HTTP handlers return Except, carrying the HTTP status and
    detail of a raised HTTPException.
-/

namespace Relay

/-! ## Python dict model -/

/-- First-match lookup in an association list, the model of a Python
dict read `d[k]` / `d.get(k)`. -/
def alookup {α : Type} (k : String) : List (String × α) → Option α
  | [] => none
  | (k2, v) :: rest => if k = k2 then some v else alookup k rest

/-- Python dict assignment `d[k] = v`: replaces the value in place when
the key is present, appends at the end otherwise. -/
def aset {α : Type} (k : String) (v : α) : List (String × α) → List (String × α)
  | [] => [(k, v)]
  | (k2, w) :: rest => if k2 = k then (k, v) :: rest else (k2, w) :: aset k v rest

/-- Python dict deletion `del d[k]`. -/
def adel {α : Type} (k : String) (d : List (String × α)) : List (String × α) :=
  d.filter (fun kv => kv.1 ≠ k)

/-! ## Persistence store (well-typed level)

The store file holds four named collections.  DB is the well-typed
shape produced by `load_db` when the file is absent, unreadable or a
JSON object; the raw level is modelled separately below with JVal. -/

structure DB where
  payments : List String
  sms : List (String × String)
  banned_ips : List String
  banned_ids : List String
  deriving Repr, DecidableEq

/-- The default store, `{"payments": [], "sms": [], "banned_ips": [],
"banned_ids": []}`. -/
def emptyDB : DB := ⟨[], [], [], []⟩

/-- Embedding of `is_banned(client_id, ip)` from src/main.py lines
51-53.  The db argument is the store as loaded from the persistence
file at the moment of the call (the Python code calls `load_db()`
afresh on every invocation, so there is no cached state to model). -/
def is_banned (db : DB) (client_id ip : String) : Bool :=
  db.banned_ids.contains client_id || db.banned_ips.contains ip

/-- One guarded insertion of ban_client, `if v and v not in l:
l.append(v)`: the Python truthiness guard fails for None and for the
empty string, and the append is skipped when the value is already
present. -/
def ban_ids_step (l : List String) (v : Option String) : List String :=
  match v with
  | some c => if c ≠ "" ∧ c ∉ l then l ++ [c] else l
  | none => l

/-- One guarded removal of unban_client, `if v and v in l:
l.remove(v)`: the same truthiness guard, and Python `list.remove`
deletes the first occurrence, which is `List.erase`. -/
def unban_ids_step (l : List String) (v : Option String) : List String :=
  match v with
  | some c => if c ≠ "" ∧ c ∈ l then l.erase c else l
  | none => l

/-- Embedding of `ban_client(client_id, ip)` from src/main.py lines
55-59: the guarded insertion applied to each of the two ban
collections, then the store is written back. -/
def ban_client (db : DB) (client_id ip : Option String) : DB :=
  { db with
    banned_ids := ban_ids_step db.banned_ids client_id,
    banned_ips := ban_ids_step db.banned_ips ip }

/-- Embedding of `unban_client(client_id, ip)` from src/main.py lines
61-65: the guarded removal applied to each of the two ban
collections. -/
def unban_client (db : DB) (client_id ip : Option String) : DB :=
  { db with
    banned_ids := unban_ids_step db.banned_ids client_id,
    banned_ips := unban_ids_step db.banned_ips ip }

/-- A sequence of id-only ban calls, one per list element. -/
def run_bans (db : DB) (ids : List String) : DB :=
  ids.foldl (fun d i => ban_client d (some i) none) db

/-- A sequence of id-only unban calls, one per list element. -/
def run_unbans (db : DB) (ids : List String) : DB :=
  ids.foldl (fun d i => unban_client d (some i) none) db

/-! ## Session registry (ConnectionManager) -/

/-- A connection handle; the embedding identifies each WebSocket object
by a number. -/
abbrev Conn := Nat

/-- Embedding of `ConnectionManager.connect_client` (src/main.py lines
118-120): registers or overwrites the mapping for the id.  The
`websocket.accept()` transport effect is tracked separately in the
admission trace below. -/
def connect_client (clients : List (String × Conn)) (client_id : String) (ws : Conn) :
    List (String × Conn) :=
  aset client_id ws clients

/-- Embedding of `ConnectionManager.disconnect_client` (src/main.py
lines 122-124).  The Python method receives only the client id; it
deletes whatever mapping is present for the id, with no comparison
against the connection that is disconnecting. -/
def disconnect_client (clients : List (String × Conn)) (client_id : String) :
    List (String × Conn) :=
  if (alookup client_id clients).isSome then adel client_id clients else clients

/-- Embedding of `ConnectionManager.broadcast_to_admins` (src/main.py
lines 126-131).  sendOk tells, for each admin connection, whether
`send_json` succeeds on it; a failure is caught and skipped with
`continue`.  The result is the pair (connections the envelope was
delivered to, the admin list after the broadcast); the Python loop
never mutates `self.admins`, so the second component is the input
list unchanged. -/
def broadcast_to_admins (admins : List Conn) (sendOk : Conn → Bool) :
    List Conn × List Conn :=
  (admins.foldl (fun delivered c => if sendOk c then delivered ++ [c] else delivered) [],
   admins)

/-- The connection closed when the `close_later` task scheduled inside
`ban_endpoint` (src/main.py lines 260-264) fires: the task captured
only the client id string, sleeps through the grace delay, and then
closes whatever connection the registry maps that id to at fire time
(none if the id is unmapped by then). -/
def close_later_target (clients_at_fire : List (String × Conn)) (cid : String) : Option Conn :=
  if (alookup cid clients_at_fire).isSome then alookup cid clients_at_fire else none

/-! ## Persistence store (raw JSON level)

`load_db` (src/main.py lines 39-49) may face a file whose JSON content
is anything, so the raw level models JSON values and the exact Python
semantics of the loop

    for key in default:
        if key not in data: data[key] = default[key]

including the TypeErrors that `in` and item assignment raise on
non-container and non-dict values, which the bare `except` turns into
the default store. -/

inductive JVal where
  | jnull : JVal
  | jbool : Bool → JVal
  | jnum : Int → JVal
  | jstr : String → JVal
  | jarr : List JVal → JVal
  | jobj : List (String × JVal) → JVal

/-- Whether a JSON value is an object (a Python dict after json.load). -/
def JVal.isObj : JVal → Bool
  | .jobj _ => true
  | _ => false

/-- Whether the first list is a prefix of the second. -/
def isPrefixOfL (needle : List Char) (hay : List Char) : Bool :=
  match needle, hay with
  | [], _ => true
  | _ :: _, [] => false
  | a :: as, b :: bs => a = b && isPrefixOfL as bs

/-- Whether needle occurs as a contiguous run inside hay. -/
def substrOccursL (needle : List Char) : List Char → Bool
  | [] => isPrefixOfL needle []
  | c :: rest => isPrefixOfL needle (c :: rest) || substrOccursL needle rest

/-- The semantics of Python `needle in hay` on strings: a substring
test. -/
def substrOccurs (needle hay : String) : Bool :=
  substrOccursL needle.data hay.data

/-- Python membership `key in data` on a JSON value: key lookup for a
dict, element equality for a list, substring test for a string; none
models the TypeError raised on numbers, booleans and null. -/
def pyContains (v : JVal) (key : String) : Option Bool :=
  match v with
  | .jobj fields => some (alookup key fields).isSome
  | .jarr elems => some (elems.any (fun e => match e with
      | .jstr s => s = key
      | _ => false))
  | .jstr s => some (substrOccurs key s)
  | _ => none

/-- Python item assignment `data[key] = val` on a JSON value: dict
update for an object, none models the TypeError on everything else. -/
def pySetItem (v : JVal) (key : String) (val : JVal) : Option JVal :=
  match v with
  | .jobj fields => some (.jobj (aset key val fields))
  | _ => none

/-- The literal `default` dict of load_db, in its insertion order. -/
def default_db : List (String × JVal) :=
  [("payments", .jarr []), ("sms", .jarr []), ("banned_ips", .jarr []), ("banned_ids", .jarr [])]

/-- The four collection names of the store. -/
def STORE_KEYS : List String := ["payments", "sms", "banned_ips", "banned_ids"]

/-- One iteration of the load_db loop body for one default key: skip
when the key is reported present, assign the default when absent,
propagate a raised TypeError as none. -/
def load_db_step (v : JVal) (kv : String × JVal) : Option JVal :=
  match pyContains v kv.1 with
  | none => none
  | some true => some v
  | some false => pySetItem v kv.1 kv.2

/-- The load_db loop over a list of default entries: each iteration
either keeps or extends the value, and a raised TypeError aborts the
whole try block. -/
def apply_defaults_loop : JVal → List (String × JVal) → Option JVal
  | v, [] => some v
  | v, kv :: rest =>
      match load_db_step v kv with
      | none => none
      | some v2 => apply_defaults_loop v2 rest

/-- The whole load_db loop over the four default keys. -/
def apply_defaults (v : JVal) : Option JVal :=
  apply_defaults_loop v default_db

/-- The effect of one loop iteration on an object store: keep the
fields when the key is present, append the default entry otherwise. -/
def ensure_obj_step (f : List (String × JVal)) (kv : String × JVal) : List (String × JVal) :=
  if (alookup kv.1 f).isSome then f else aset kv.1 kv.2 f

/-- A JSON array holding exactly the four collection names as strings:
a possible content of database.json for which the load loop raises no
TypeError although the value is not an object. -/
def four_names_arr : JVal :=
  .jarr [.jstr "payments", .jstr "sms", .jstr "banned_ips", .jstr "banned_ids"]

/-- The state of the database.json file when load_db runs: absent,
unreadable (open or json.load raises), or parsed to a JSON value. -/
inductive FileState where
  | missing : FileState
  | readError : FileState
  | parsed : JVal → FileState

/-- Embedding of `load_db()` from src/main.py lines 39-49: the default
store when the file is missing; otherwise the parsed value with the
loop applied, where any exception inside the try block (a read error,
a parse error, or a TypeError from the loop) yields the default. -/
def load_db : FileState → JVal
  | .missing => .jobj default_db
  | .readError => .jobj default_db
  | .parsed v => (apply_defaults v).getD (.jobj default_db)

/-- Collection lookup on a loaded store value: the field when the value
is an object holding the key, none otherwise. -/
def jGet (v : JVal) (k : String) : Option JVal :=
  match v with
  | .jobj fields => alookup k fields
  | _ => none

/-- Whether a loaded store value carries the named collection. -/
def hasCollection (v : JVal) (k : String) : Bool :=
  (jGet v k).isSome

/-! ## Client address selection -/

/-- Python `s.split(",")` on the character list of s: the comma is the
separator, the split of the empty string is one empty part, and a
trailing comma yields a trailing empty part. -/
def splitComma : List Char → List (List Char)
  | [] => [[]]
  | c :: rest =>
      if c = ',' then [] :: splitComma rest
      else match splitComma rest with
        | [] => [[c]]
        | p :: ps => (c :: p) :: ps

/-- Python `s.strip()`: drops leading and trailing whitespace. -/
def pyStrip (l : List Char) : List Char :=
  ((l.dropWhile Char.isWhitespace).reverse.dropWhile Char.isWhitespace).reverse

/-- Python `s.split(",")[0].strip()`: the first comma-separated entry,
stripped of surrounding whitespace. -/
def pyFirstSplitEntry (s : String) : String :=
  ⟨pyStrip ((splitComma s.data).headD [])⟩

/-- Embedding of `get_real_ip(request)` from src/main.py lines 73-77,
the address used by the payment-submission path: xff is the
x-forwarded-for header (none when absent) and host the transport peer
address.  The Python `if forwarded:` truthiness test fails for None
and for the empty string. -/
def get_real_ip (xff : Option String) (host : String) : String :=
  match xff with
  | some f => if f ≠ "" then pyFirstSplitEntry f else host
  | none => host

/-- Embedding of the address computation of `websocket_client`
(src/main.py line 284): the header defaults to the empty string when
absent, and the `or` falls back to the peer host whenever the stripped
first entry is empty. -/
def ws_client_ip (xff : Option String) (host : String) : String :=
  let s := pyFirstSplitEntry (xff.getD "")
  if s ≠ "" then s else host

/-- Stated from the claim, for comparison with the two embeddings: the
address is the first comma-separated entry of the header whenever the
header is present and non-empty, and the transport peer address only
otherwise. -/
def claim_address (xff : Option String) (host : String) : String :=
  match xff with
  | some f => if f ≠ "" then pyFirstSplitEntry f else host
  | none => host

/-! ## Envelopes and the event router -/

/-- The envelope kinds exchanged over the two connection roles, with
their kind-specific fields as sent by src/main.py. -/
inductive Envelope where
  | newPayment : List (String × JVal) → Envelope
  | newSms : String → String → Envelope
  | clientStatus : String → String → Envelope
  | clientEvent : String → Option JVal → Option JVal → Envelope
  | redirectCmd : String → Envelope
  | bannedMsg : String → Envelope

/-- The BANNED envelope sent by both ban_endpoint and the admission
path: `{"type": "BANNED", "redirect": "https://www.facebook.com"}`. -/
def bannedEnvelope : Envelope := .bannedMsg "https://www.facebook.com"

/-- Embedding of the receive loop body of `websocket_client`
(src/main.py lines 303-308) for one inbound frame: none is a payload
on which `json.loads` raised; a parsed non-object raises AttributeError
at `r.get`; both exceptions are swallowed by the bare except and
nothing is sent.  A parsed object is forwarded to every admin as a
CLIENT_EVENT carrying `r.get("event")` and `r.get("data")`.  The
result is the list of (admin connection, envelope) sends performed. -/
def handle_frame (client_id : String) (admins : List Conn) (frame : Option JVal) :
    List (Conn × Envelope) :=
  match frame with
  | none => []
  | some (.jobj fields) =>
      admins.map (fun a => (a, .clientEvent client_id (alookup "event" fields) (alookup "data" fields)))
  | some _ => []

/-- The observable actions of the session-socket handler during
admission. -/
inductive SessAction where
  | accept : SessAction
  | send : Envelope → SessAction
  | close : Nat → SessAction
  | register : String → SessAction
  | broadcastStatus : String → String → SessAction

/-- Whether an admission action is a send on the session socket. -/
def SessAction.isSend : SessAction → Bool
  | .send _ => true
  | _ => false

/-- Whether an admission action registers some id in the registry. -/
def SessAction.isRegister : SessAction → Bool
  | .register _ => true
  | _ => false

/-- Embedding of the admission prefix of `websocket_client`
(src/main.py lines 286-302): when the Moderation Gate reports the id
or address banned, the socket is accepted, sent the single BANNED
envelope, and closed with code 4003, without ever being registered;
otherwise `manager.connect_client` accepts and registers it and the
online CLIENT_STATUS is broadcast to the admins. -/
def websocket_client_admission (db : DB) (client_id ip : String) : List SessAction :=
  if is_banned db client_id ip then
    [.accept, .send bannedEnvelope, .close 4003]
  else
    [.accept, .register client_id, .broadcastStatus client_id "online"]

/-! ## Administrative endpoints and the key gate -/

/-- The configured shared secret (the fallback literal of the API_KEY
environment read in src/main.py line 18). -/
def API_KEY : String := "pro-audit-secret-key-2024"

/-- The outcome of a fallible HTTP handler: an HTTPException with its
status code and detail, or a value. -/
abbrev HRes (α : Type) := Except (Nat × String) α

/-- Embedding of the dependency `get_api_key` (src/main.py lines
190-192): the caller-supplied X-API-KEY header (none when absent)
passes only when it equals the configured secret; anything else raises
403 Invalid API Key. -/
def get_api_key (header_key : Option String) : HRes String :=
  if header_key = some API_KEY then .ok API_KEY
  else .error (403, "Invalid API Key")

/-- Whether a handler outcome is a 403 rejection. -/
def is403 {α : Type} : HRes α → Bool
  | .error (code, _) => code == 403
  | .ok _ => false

/-- Embedding of the `/v1/audit` handler `create_audit` (src/main.py
lines 195-219): runs the key gate, then rejects 403 BANNED when the
submitter id or derived address is banned, and otherwise enriches,
persists and broadcasts the record and answers PENDING.  The stored
payload and the broadcast are elided here; only the outcome status is
kept. -/
def create_audit (key : Option String) (db : DB) (client_id real_ip : String) : HRes String :=
  match get_api_key key with
  | .error e => .error e
  | .ok _ =>
      if is_banned db client_id real_ip then .error (403, "BANNED")
      else .ok "PENDING"

/-- Embedding of the `/v1/sms-submit` handler `submit_sms` (src/main.py
lines 221-229): the handler declares no dependency on get_api_key, so
the key argument (whatever X-API-KEY header the caller sent) is never
consulted; the record is saved and broadcast and the handler answers
success unconditionally. -/
def submit_sms (key : Option String) (client_id otp : String) : HRes String :=
  .ok "success"

/-- Embedding of the `/v1/admin/redirect` handler `admin_redirect`
(src/main.py lines 231-237): key gate, then a best-effort unicast and
an unconditional command_sent answer. -/
def admin_redirect (key : Option String) (client_id target : String) : HRes String :=
  match get_api_key key with
  | .error e => .error e
  | .ok _ => .ok "command_sent"

/-- Embedding of the `/v1/admin/history` handler `get_history`
(src/main.py lines 239-241): key gate, then the whole loaded store. -/
def get_history (key : Option String) (db : DB) : HRes DB :=
  match get_api_key key with
  | .error e => .error e
  | .ok _ => .ok db

/-- Embedding of the `/v1/admin/download` handler `download_db`
(src/main.py lines 243-247): key gate, then the raw file when it
exists and an error object otherwise (both are 200 outcomes). -/
def download_db (key : Option String) (fileExists : Bool) : HRes String :=
  match get_api_key key with
  | .error e => .error e
  | .ok _ => .ok (if fileExists then "file" else "no_data")

/-- Embedding of the `/v1/admin/ban` handler `ban_endpoint`
(src/main.py lines 249-265): key gate, then the ban_client mutation;
the BANNED unicast and the scheduled close_later task are modelled by
close_later_target above. -/
def ban_endpoint (key : Option String) (db : DB) (client_id ip : Option String) : HRes DB :=
  match get_api_key key with
  | .error e => .error e
  | .ok _ => .ok (ban_client db client_id ip)

/-- Embedding of the `/v1/admin/unban` handler `unban_endpoint`
(src/main.py lines 267-270): key gate, then the unban_client
mutation. -/
def unban_endpoint (key : Option String) (db : DB) (client_id ip : Option String) : HRes DB :=
  match get_api_key key with
  | .error e => .error e
  | .ok _ => .ok (unban_client db client_id ip)

/-! ## Theorems -/

/-- Claim C1.  The claim states that after connectSession(id, connA)
and connectSession(id, connB) with connA and connB distinct, a
disconnectSession(id, connA) leaves the mapping for id equal to connB,
removal being conditional on the currently mapped handle.  The code
disconnect_client receives no connection handle at all and deletes the
mapping for the id unconditionally: at the concrete input below the
registry maps "S" to connection 2 before the disconnect and to nothing
after it, evicting the newer connection. -/
theorem disconnect_client_evicts_newer_connection :
    alookup "S" (connect_client (connect_client [] "S" 1) "S" 2) = some 2
    ∧ alookup "S" (disconnect_client (connect_client (connect_client [] "S" 1) "S" 2) "S") = none := by
  decide

/-- Claim C2.  The claim states that the forced-closure timer is
cancellable and bound to the connection handle captured at schedule
time, never closing a different, newer connection for the id.  The
close_later task of ban_endpoint captures only the id string and is
never cancelled: below, the timer is scheduled while "S" maps to
connection 1, connection 1 disconnects and connection 2 registers
under "S" within the grace delay, and at fire time the task closes
connection 2. -/
theorem close_later_closes_newer_connection :
    alookup "S" (connect_client [] "S" 1) = some 1
    ∧ close_later_target
        (connect_client (disconnect_client (connect_client [] "S" 1) "S") "S" 2) "S" = some 2 := by
  decide

/-- Claim C3 counterexample.  The claim states that every
administrative one-shot call, the OTP submission included, rejects
with 403 exactly when the supplied key header differs from the shared
secret.  The /v1/sms-submit handler declares no key dependency: with
no key header at all (none differs from the secret) it still answers
success instead of a 403 rejection. -/
theorem sms_submit_succeeds_without_key :
    submit_sms none "c1" "1234" = .ok "success" ∧ (none : Option String) ≠ some API_KEY := by
  exact ⟨rfl, by decide⟩

/-- Claim C3, amended.  The redirect, snapshot, download, ban and unban
calls reject with 403 exactly when the key header differs from the
configured secret; the payment submission rejects with 403 exactly
when the key differs or the submitter id or derived address is banned;
and the OTP submission performs no key check and answers success for
every key. -/
theorem admin_auth_gate (key : Option String) (db : DB) (cid ip target otp : String)
    (ocid oip : Option String) (fe : Bool) :
    (is403 (admin_redirect key cid target) = true ↔ key ≠ some API_KEY)
    ∧ (is403 (get_history key db) = true ↔ key ≠ some API_KEY)
    ∧ (is403 (download_db key fe) = true ↔ key ≠ some API_KEY)
    ∧ (is403 (ban_endpoint key db ocid oip) = true ↔ key ≠ some API_KEY)
    ∧ (is403 (unban_endpoint key db ocid oip) = true ↔ key ≠ some API_KEY)
    ∧ (is403 (create_audit key db cid ip) = true ↔
        (key ≠ some API_KEY ∨ is_banned db cid ip = true))
    ∧ submit_sms key cid otp = .ok "success" := by
  by_cases h : key = some API_KEY
  · by_cases hb : is_banned db cid ip = true <;>
      simp [h, hb, admin_redirect, get_history, download_db, ban_endpoint, unban_endpoint,
        create_audit, submit_sms, get_api_key, is403]
  · simp [h, admin_redirect, get_history, download_db, ban_endpoint, unban_endpoint,
      create_audit, submit_sms, get_api_key, is403]

/-- Claim C4.  The claim states that a connection on which the
broadcast send fails is removed from the supervisor set by that
broadcast.  The loop of broadcast_to_admins catches the failure and
continues without touching the set: with supervisors 1 and 2 and the
send to 1 failing, the envelope is delivered only to 2 and yet the set
after the broadcast still holds connection 1. -/
theorem broadcast_retains_failed_connection :
    broadcast_to_admins [1, 2] (fun c => decide (c = 2)) = ([2], [1, 2])
    ∧ 1 ∈ (broadcast_to_admins [1, 2] (fun c => decide (c = 2))).2 := by
  decide

/-- Claim C5: a session connection whose id or address is banned at
admission time is accepted, sent exactly one BANNED envelope carrying
a redirect target, closed with the distinct code 4003, and never
registered in the registry; the admission trace is never empty, so the
connection is never silently dropped. -/
theorem banned_admission_notifies_and_never_registers (db : DB) (cid ip : String)
    (h : is_banned db cid ip = true) :
    websocket_client_admission db cid ip = [.accept, .send bannedEnvelope, .close 4003]
    ∧ (∀ c, SessAction.register c ∉ websocket_client_admission db cid ip)
    ∧ (websocket_client_admission db cid ip).countP (fun a => a.isSend) = 1
    ∧ websocket_client_admission db cid ip ≠ [] := by
  refine ⟨by simp [websocket_client_admission, h], ?_, ?_, ?_⟩
  · intro c
    simp [websocket_client_admission, h]
  · simp [websocket_client_admission, h, List.countP_cons, SessAction.isSend]
  · simp [websocket_client_admission, h]

/-- Witness for the C5 theorem at a concrete banned store. -/
theorem banned_admission_witness :
    is_banned ⟨[], [], [], ["S"]⟩ "S" "1.2.3.4" = true
    ∧ websocket_client_admission ⟨[], [], [], ["S"]⟩ "S" "1.2.3.4"
        = [.accept, .send bannedEnvelope, .close 4003] := by
  refine ⟨by decide, ?_⟩
  exact (banned_admission_notifies_and_never_registers ⟨[], [], [], ["S"]⟩ "S" "1.2.3.4"
    (by decide)).1

/-- Claim C6: is_banned on the store loaded at the time of the call
answers true exactly when the id is in the banned-id collection or the
address is in the banned-address collection of that store. -/
theorem is_banned_iff (db : DB) (cid ip : String) :
    is_banned db cid ip = true ↔ (cid ∈ db.banned_ids ∨ ip ∈ db.banned_ips) := by
  simp [is_banned]

/-- Claim C8.  The claim states that a frame carrying an unrecognized
event tag is discarded with nothing forwarded to supervisors.  The
receive loop forwards every successfully parsed object to every admin
as CLIENT_EVENT, whatever its tag: at the concrete input below a frame
tagged UNKNOWN_TAG is forwarded to admin connection 7.  (A frame that
fails to parse, first conjunct of the last line, is indeed discarded.) -/
theorem unrecognized_tag_forwarded_to_admins :
    handle_frame "S" [7] (some (.jobj [("event", .jstr "UNKNOWN_TAG"), ("data", .jnull)]))
      = [(7, .clientEvent "S" (some (.jstr "UNKNOWN_TAG")) (some .jnull))]
    ∧ handle_frame "S" [7] none = []
    ∧ handle_frame "S" [7] (some (.jobj [("event", .jstr "UNKNOWN_TAG"), ("data", .jnull)])) ≠ [] := by
  refine ⟨rfl, rfl, ?_⟩
  simp [handle_frame]

/-! ### Ban round-trip lemmas (claim C7) -/

/-- The banned-id collection after a sequence of id-only bans is the
fold of the guarded insertion over the ids. -/
theorem run_bans_banned_ids : ∀ (ids : List String) (db : DB),
    (run_bans db ids).banned_ids = ids.foldl (fun l i => ban_ids_step l (some i)) db.banned_ids := by
  intro ids
  induction ids with
  | nil => intro db; rfl
  | cons i rest ih =>
    intro db
    rw [show run_bans db (i :: rest) = run_bans (ban_client db (some i) none) rest from rfl, ih]
    rfl

/-- The banned-id collection after a sequence of id-only unbans is the
fold of the guarded removal over the ids. -/
theorem run_unbans_banned_ids : ∀ (ids : List String) (db : DB),
    (run_unbans db ids).banned_ids = ids.foldl (fun l i => unban_ids_step l (some i)) db.banned_ids := by
  intro ids
  induction ids with
  | nil => intro db; rfl
  | cons i rest ih =>
    intro db
    rw [show run_unbans db (i :: rest) = run_unbans (unban_client db (some i) none) rest from rfl, ih]
    rfl

/-- The guarded insertion appends when the value is non-empty and
absent. -/
theorem ban_ids_step_eq_append (l : List String) (i : String) (h1 : i ≠ "") (h2 : i ∉ l) :
    ban_ids_step l (some i) = l ++ [i] := by
  simp [ban_ids_step, h1, h2]

/-- The guarded insertion is the identity when its condition fails. -/
theorem ban_ids_step_eq_self (l : List String) (i : String) (h : ¬(i ≠ "" ∧ i ∉ l)) :
    ban_ids_step l (some i) = l := by
  simp only [ban_ids_step, if_neg h]

/-- The guarded removal erases when the value is non-empty and
present. -/
theorem unban_ids_step_eq_erase (l : List String) (i : String) (h1 : i ≠ "") (h2 : i ∈ l) :
    unban_ids_step l (some i) = l.erase i := by
  simp [unban_ids_step, h1, h2]

/-- The guarded removal is the identity when its condition fails. -/
theorem unban_ids_step_eq_self (l : List String) (i : String) (h : ¬(i ≠ "" ∧ i ∈ l)) :
    unban_ids_step l (some i) = l := by
  simp only [unban_ids_step, if_neg h]

/-- Membership after folding the guarded insertion: an element is
present exactly when it was present before or is a non-empty element
of the inserted ids. -/
theorem mem_foldl_ban (x : String) : ∀ (ids l : List String),
    x ∈ ids.foldl (fun a i => ban_ids_step a (some i)) l ↔ x ∈ l ∨ (x ∈ ids ∧ x ≠ "") := by
  intro ids
  induction ids with
  | nil => intro l; simp
  | cons i rest ih =>
    intro l
    rw [List.foldl_cons, ih]
    by_cases hi : i = ""
    · subst hi
      simp only [ban_ids_step, ne_eq, not_true_eq_false, false_and, if_false, List.mem_cons]
      tauto
    · by_cases him : i ∈ l
      · have hmono : x = i → x ∈ l := fun h => h ▸ him
        simp only [ban_ids_step, ne_eq, hi, not_false_eq_true, true_and, him,
          not_true_eq_false, if_false, List.mem_cons]
        tauto
      · have hxi : x = i → ¬x = "" := fun h => h ▸ hi
        simp only [ban_ids_step, ne_eq, hi, not_false_eq_true, true_and, him,
          not_false_eq_true, if_true, List.mem_append, List.mem_singleton, List.mem_cons]
        tauto

/-- The guarded insertion keeps the collection duplicate-free. -/
theorem nodup_foldl_ban : ∀ (ids l : List String),
    l.Nodup → (ids.foldl (fun a i => ban_ids_step a (some i)) l).Nodup := by
  intro ids
  induction ids with
  | nil => intro l h; simpa using h
  | cons i rest ih =>
    intro l h
    rw [List.foldl_cons]
    apply ih
    by_cases hc : i ≠ "" ∧ i ∉ l
    · rw [ban_ids_step_eq_append l i hc.1 hc.2]
      simp [List.nodup_append, h, hc.2]
    · rw [ban_ids_step_eq_self l i hc]
      exact h

/-- The guarded removal keeps the collection duplicate-free. -/
theorem nodup_foldl_unban : ∀ (ids l : List String),
    l.Nodup → (ids.foldl (fun a i => unban_ids_step a (some i)) l).Nodup := by
  intro ids
  induction ids with
  | nil => intro l h; simpa using h
  | cons i rest ih =>
    intro l h
    rw [List.foldl_cons]
    apply ih
    by_cases hc : i ≠ "" ∧ i ∈ l
    · rw [unban_ids_step_eq_erase l i hc.1 hc.2]
      exact h.erase i
    · rw [unban_ids_step_eq_self l i hc]
      exact h

/-- The guarded removal never adds elements. -/
theorem mem_of_foldl_unban (x : String) : ∀ (ids l : List String),
    x ∈ ids.foldl (fun a i => unban_ids_step a (some i)) l → x ∈ l := by
  intro ids
  induction ids with
  | nil => intro l h; simpa using h
  | cons i rest ih =>
    intro l h
    rw [List.foldl_cons] at h
    have h2 := ih _ h
    by_cases hc : i ≠ "" ∧ i ∈ l
    · rw [unban_ids_step_eq_erase l i hc.1 hc.2] at h2
      exact List.mem_of_mem_erase h2
    · rw [unban_ids_step_eq_self l i hc] at h2
      exact h2

/-- Membership after folding the guarded removal over a duplicate-free
collection: a non-empty element survives exactly when it was present
and is not among the removed ids. -/
theorem mem_foldl_unban (x : String) (hx : x ≠ "") : ∀ (ids l : List String),
    l.Nodup →
    (x ∈ ids.foldl (fun a i => unban_ids_step a (some i)) l ↔ x ∈ l ∧ x ∉ ids) := by
  intro ids
  induction ids with
  | nil => intro l _; simp
  | cons i rest ih =>
    intro l hnd
    rw [List.foldl_cons]
    have hnd2 : (unban_ids_step l (some i)).Nodup := by
      by_cases hc : i ≠ "" ∧ i ∈ l
      · rw [unban_ids_step_eq_erase l i hc.1 hc.2]; exact hnd.erase i
      · rw [unban_ids_step_eq_self l i hc]; exact hnd
    rw [ih _ hnd2]
    by_cases hi : i = ""
    · subst hi
      rw [unban_ids_step_eq_self l "" (by simp)]
      have hxi : ¬x = "" := hx
      simp only [List.mem_cons]
      tauto
    · by_cases him : i ∈ l
      · rw [unban_ids_step_eq_erase l i hi him, hnd.mem_erase_iff]
        simp only [List.mem_cons]
        tauto
      · rw [unban_ids_step_eq_self l i (fun hcon => him hcon.2)]
        have hxi : x = i → ¬x ∈ l := fun h => h ▸ him
        simp only [List.mem_cons]
        tauto

/-- The guarded insertion is idempotent on both collections. -/
theorem ban_ids_step_idem (l : List String) (v : Option String) :
    ban_ids_step (ban_ids_step l v) v = ban_ids_step l v := by
  rcases v with _ | s
  · rfl
  · by_cases hs : s ≠ "" ∧ s ∉ l
    · simp [ban_ids_step, hs, List.mem_append]
    · simp [ban_ids_step, hs]

/-- Claim C7 counterexample.  The claim quantifies over every id, but
the Python guard `if client_id:` is a truthiness test, so a ban of the
empty-string id is silently dropped: after banning "" (and unbanning
nothing) the persisted banned-id collection does not contain "",
although "" was banned and never unbanned. -/
theorem ban_empty_id_silently_dropped :
    (run_unbans (run_bans emptyDB [""]) []).banned_ids = []
    ∧ "" ∈ [""] ∧ "" ∉ ([] : List String) := by
  refine ⟨rfl, by decide, by decide⟩

/-- Claim C7, amended to non-empty ids: for every list of ban calls
over non-empty ids (repetitions allowed) followed by unban calls over
any chosen ids, starting from the empty store, the persisted banned-id
collection contains exactly the ids banned and not subsequently
unbanned, with exactly one stored entry per such id; consecutive bans
of the same id (and address) leave the store unchanged. -/
theorem ban_unban_roundtrip (bans unbans : List String) (hne : ∀ i ∈ bans, i ≠ "") :
    (∀ x, x ∈ (run_unbans (run_bans emptyDB bans) unbans).banned_ids ↔
      (x ∈ bans ∧ x ∉ unbans))
    ∧ (run_unbans (run_bans emptyDB bans) unbans).banned_ids.Nodup
    ∧ (∀ x, x ∈ bans → x ∉ unbans →
        (run_unbans (run_bans emptyDB bans) unbans).banned_ids.count x = 1)
    ∧ (∀ (db : DB) (c a : Option String), ban_client (ban_client db c a) c a = ban_client db c a) := by
  have hrw : (run_unbans (run_bans emptyDB bans) unbans).banned_ids =
      unbans.foldl (fun l i => unban_ids_step l (some i))
        (bans.foldl (fun l i => ban_ids_step l (some i)) ([] : List String)) := by
    rw [run_unbans_banned_ids, run_bans_banned_ids]
    rfl
  have hnd1 : (bans.foldl (fun l i => ban_ids_step l (some i)) ([] : List String)).Nodup :=
    nodup_foldl_ban bans [] (by simp)
  have hnd2 : (run_unbans (run_bans emptyDB bans) unbans).banned_ids.Nodup := by
    rw [hrw]; exact nodup_foldl_unban unbans _ hnd1
  have hmem : ∀ x, x ∈ (run_unbans (run_bans emptyDB bans) unbans).banned_ids ↔
      (x ∈ bans ∧ x ∉ unbans) := by
    intro x
    rw [hrw]
    by_cases hx : x = ""
    · subst hx
      constructor
      · intro h
        have h1 := mem_of_foldl_unban "" unbans _ h
        rw [mem_foldl_ban] at h1
        simp at h1
      · rintro ⟨hb, _⟩
        exact absurd rfl (hne "" hb)
    · rw [mem_foldl_unban x hx unbans _ hnd1, mem_foldl_ban]
      simp only [List.not_mem_nil, false_or]
      tauto
  refine ⟨hmem, hnd2, ?_, ?_⟩
  · intro x hxb hxu
    exact List.count_eq_one_of_mem hnd2 ((hmem x).2 ⟨hxb, hxu⟩)
  · intro db c a
    simp [ban_client, ban_ids_step_idem]

/-- Witness for the amended C7 theorem: bans of a, b, a followed by an
unban of b leave exactly one entry for a. -/
theorem ban_unban_roundtrip_witness :
    (∀ i ∈ ["a", "b", "a"], i ≠ "")
    ∧ ("a" ∈ (run_unbans (run_bans emptyDB ["a", "b", "a"]) ["b"]).banned_ids ↔
        ("a" ∈ ["a", "b", "a"] ∧ "a" ∉ ["b"]))
    ∧ (run_unbans (run_bans emptyDB ["a", "b", "a"]) ["b"]).banned_ids.Nodup
    ∧ (run_unbans (run_bans emptyDB ["a", "b", "a"]) ["b"]).banned_ids.count "a" = 1 := by
  have h := ban_unban_roundtrip ["a", "b", "a"] ["b"] (by decide)
  exact ⟨by decide, h.1 "a", h.2.1, h.2.2.1 "a" (by decide) (by decide)⟩

/-! ### Address selection (claim C9) -/

/-- Claim C9 counterexample.  The claim states that on both admission
paths the address compared against the banned-address set is the
stripped first comma-separated entry of the x-forwarded-for header
whenever the header is present and non-empty.  For the header ","
(present and non-empty, first entry stripping to the empty string) the
session-connect path falls back to the transport peer address instead
of using that first entry, diverging from the claim and from the
payment path. -/
theorem ws_ip_diverges_on_blank_first_entry :
    ws_client_ip (some ",") "9.9.9.9" = "9.9.9.9"
    ∧ claim_address (some ",") "9.9.9.9" = ""
    ∧ ws_client_ip (some ",") "9.9.9.9" ≠ claim_address (some ",") "9.9.9.9" := by
  refine ⟨by decide, by decide, by decide⟩

/-- Claim C9, amended: the payment path uses exactly the address the
claim describes (so its admission address is client-controllable); the
session-connect path uses the stripped first comma-separated entry of
the header whenever that entry is non-empty, and falls back to the
transport peer address exactly when the stripped first entry of the
(possibly defaulted) header is empty. -/
theorem admission_address_selection (xff : Option String) (host f : String) :
    get_real_ip xff host = claim_address xff host
    ∧ (pyFirstSplitEntry f ≠ "" → ws_client_ip (some f) host = pyFirstSplitEntry f)
    ∧ (pyFirstSplitEntry (xff.getD "") = "" → ws_client_ip xff host = host) := by
  refine ⟨rfl, ?_, ?_⟩
  · intro h
    simp [ws_client_ip, h]
  · intro h
    simp [ws_client_ip, h]

/-- Witness for the amended C9 theorem at concrete headers. -/
theorem admission_address_selection_witness :
    get_real_ip (some "1.2.3.4, 5.6.7.8") "9.9.9.9" = claim_address (some "1.2.3.4, 5.6.7.8") "9.9.9.9"
    ∧ ws_client_ip (some "1.2.3.4, 5.6.7.8") "9.9.9.9" = pyFirstSplitEntry "1.2.3.4, 5.6.7.8"
    ∧ ws_client_ip (some " , 5.6.7.8") "7.7.7.7" = "7.7.7.7" := by
  refine ⟨(admission_address_selection (some "1.2.3.4, 5.6.7.8") "9.9.9.9" "x").1, ?_, ?_⟩
  · exact (admission_address_selection (some "1.2.3.4, 5.6.7.8") "9.9.9.9"
      "1.2.3.4, 5.6.7.8").2.1 (by decide)
  · exact (admission_address_selection (some " , 5.6.7.8") "7.7.7.7" "x").2.2 (by decide)

/-! ### Store loading (claim C10) -/

/-- Lookup of the key just set. -/
theorem alookup_aset_self {α : Type} (k : String) (v : α) : ∀ (f : List (String × α)),
    alookup k (aset k v f) = some v := by
  intro f
  induction f with
  | nil => simp [aset, alookup]
  | cons d rest ih =>
    obtain ⟨k2, w⟩ := d
    by_cases h : k2 = k
    · simp [aset, alookup, h]
    · have h2 : ¬k = k2 := fun hh => h hh.symm
      simp [aset, alookup, h, h2, ih]

/-- Setting one key leaves the lookup of any other key unchanged. -/
theorem alookup_aset_ne {α : Type} (k k2 : String) (v : α) (hk : k ≠ k2) :
    ∀ (f : List (String × α)), alookup k (aset k2 v f) = alookup k f := by
  intro f
  induction f with
  | nil => simp [aset, alookup, hk]
  | cons d rest ih =>
    obtain ⟨k3, w⟩ := d
    by_cases h : k3 = k2
    · subst h
      simp [aset, alookup, hk]
    · simp [aset, alookup, h, ih]

/-- One load-loop iteration on an object never raises and performs the
object-level step. -/
theorem load_db_step_obj (fields : List (String × JVal)) (kv : String × JVal) :
    load_db_step (.jobj fields) kv = some (.jobj (ensure_obj_step fields kv)) := by
  by_cases hc : (alookup kv.1 fields).isSome
  · simp [load_db_step, pyContains, ensure_obj_step, hc]
  · simp [load_db_step, pyContains, pySetItem, ensure_obj_step, hc]

/-- The whole load loop on an object never raises and folds the
object-level step. -/
theorem apply_defaults_loop_obj : ∀ (defs : List (String × JVal)) (fields : List (String × JVal)),
    apply_defaults_loop (.jobj fields) defs = some (.jobj (defs.foldl ensure_obj_step fields)) := by
  intro defs
  induction defs with
  | nil => intro fields; rfl
  | cons d ds ih =>
    intro fields
    rw [show apply_defaults_loop (.jobj fields) (d :: ds) =
          match load_db_step (.jobj fields) d with
          | none => none
          | some v2 => apply_defaults_loop v2 ds from rfl,
        load_db_step_obj]
    rw [List.foldl_cons]
    exact ih _

/-- Keys outside the processed defaults are untouched by the ensure
fold. -/
theorem alookup_foldl_ensure_of_ne (k : String) : ∀ (defs : List (String × JVal))
    (f : List (String × JVal)), k ∉ defs.map Prod.fst →
    alookup k (defs.foldl ensure_obj_step f) = alookup k f := by
  intro defs
  induction defs with
  | nil => intro f _; rfl
  | cons d ds ih =>
    intro f hk
    have hk1 : k ≠ d.1 := fun h => hk (by simp [h])
    have hk2 : k ∉ ds.map Prod.fst := fun h => hk (by simp [h])
    rw [List.foldl_cons, ih _ hk2]
    by_cases hc : (alookup d.1 f).isSome
    · simp [ensure_obj_step, hc]
    · simp [ensure_obj_step, hc, alookup_aset_ne k d.1 d.2 hk1 f]

/-- Lookup of a default key after the ensure fold: the original value
when the key was present, the default value when it was absent. -/
theorem alookup_foldl_ensure_mem (k : String) (v : JVal) : ∀ (defs : List (String × JVal))
    (f : List (String × JVal)), (defs.map Prod.fst).Nodup → (k, v) ∈ defs →
    alookup k (defs.foldl ensure_obj_step f) =
      if (alookup k f).isSome then alookup k f else some v := by
  intro defs
  induction defs with
  | nil => intro f _ hmem; cases hmem
  | cons d ds ih =>
    intro f hnd hmem
    have hnd2 : (ds.map Prod.fst).Nodup := by
      simpa using hnd.of_cons
    rw [List.foldl_cons]
    rcases List.mem_cons.mp hmem with heq | hmem2
    · have hdk : d = (k, v) := heq.symm
      subst hdk
      have hkds : k ∉ ds.map Prod.fst := by
        have := hnd
        simp only [List.map_cons, List.nodup_cons] at this
        exact this.1
      rw [alookup_foldl_ensure_of_ne k ds _ hkds]
      by_cases hp : (alookup k f).isSome
      · simp [ensure_obj_step, hp]
      · simp [ensure_obj_step, hp, alookup_aset_self]
    · have hdk : d.1 ≠ k := by
        intro hc
        have hkmem : k ∈ ds.map Prod.fst := List.mem_map.mpr ⟨(k, v), hmem2, rfl⟩
        have := hnd
        simp only [List.map_cons, List.nodup_cons] at this
        exact this.1 (hc ▸ hkmem)
      have hlk : alookup k (ensure_obj_step f d) = alookup k f := by
        by_cases hc : (alookup d.1 f).isSome
        · simp [ensure_obj_step, hc]
        · simp [ensure_obj_step, hc, alookup_aset_ne k d.1 d.2 (Ne.symm hdk) f]
      rw [ih _ hnd2 hmem2, hlk]

/-- Claim C10 counterexample.  The claim states that every value the
store loader returns contains all four named collections.  When the
file parses to a JSON array holding exactly the four key names, the
Python membership test `key not in data` is false for each key, the
loop assigns nothing and raises nothing, and load_db returns the array
itself: a value that is no object and carries no payments collection. -/
theorem load_db_returns_four_name_array :
    load_db (.parsed four_names_arr) = four_names_arr
    ∧ hasCollection (load_db (.parsed four_names_arr)) "payments" = false
    ∧ (four_names_arr).isObj = false := by
  exact ⟨rfl, rfl, rfl⟩

/-- Claim C10, amended: whenever the persisted file is missing,
unreadable, or parses to a JSON object (possibly lacking some keys),
the loader returns an object containing all four named collections,
and each key absent from the parsed object is filled with the empty
default; only a parsed non-object value can escape this guarantee. -/
theorem load_db_fills_missing_collections (fs : FileState)
    (h : ∀ v, fs = .parsed v → v.isObj = true) :
    (∀ k, k ∈ STORE_KEYS → hasCollection (load_db fs) k = true)
    ∧ (∀ fields k, fs = .parsed (.jobj fields) → k ∈ STORE_KEYS → alookup k fields = none →
        jGet (load_db fs) k = some (.jarr [])) := by
  cases fs with
  | missing =>
    refine ⟨?_, ?_⟩
    · intro k hk
      simp only [STORE_KEYS, List.mem_cons, List.not_mem_nil, or_false] at hk
      rcases hk with rfl | rfl | rfl | rfl <;> rfl
    · intro fields k hf
      cases hf
  | readError =>
    refine ⟨?_, ?_⟩
    · intro k hk
      simp only [STORE_KEYS, List.mem_cons, List.not_mem_nil, or_false] at hk
      rcases hk with rfl | rfl | rfl | rfl <;> rfl
    · intro fields k hf
      cases hf
  | parsed v =>
    have hobj := h v rfl
    cases v with
    | jobj fields =>
      have hload : load_db (.parsed (.jobj fields)) =
          .jobj (default_db.foldl ensure_obj_step fields) := by
        simp [load_db, apply_defaults, apply_defaults_loop_obj]
      have hnd : (default_db.map Prod.fst).Nodup := by decide
      have hkey : ∀ k, k ∈ STORE_KEYS → (k, JVal.jarr []) ∈ default_db := by
        intro k hk
        simp only [STORE_KEYS, List.mem_cons, List.not_mem_nil, or_false] at hk
        rcases hk with rfl | rfl | rfl | rfl <;> simp [default_db]
      refine ⟨?_, ?_⟩
      · intro k hk
        rw [hload]
        have hlk := alookup_foldl_ensure_mem k (.jarr []) default_db fields hnd (hkey k hk)
        by_cases hp : (alookup k fields).isSome
        · simp [hasCollection, jGet, hlk, hp]
        · simp [hasCollection, jGet, hlk, hp]
      · intro fields2 k hf hk hnone
        cases hf
        rw [hload]
        have hlk := alookup_foldl_ensure_mem k (.jarr []) default_db fields hnd (hkey k hk)
        simp [jGet, hlk, hnone]
    | jnull => simp [JVal.isObj] at hobj
    | jbool b => simp [JVal.isObj] at hobj
    | jnum n => simp [JVal.isObj] at hobj
    | jstr s => simp [JVal.isObj] at hobj
    | jarr es => simp [JVal.isObj] at hobj

/-- Witness for the amended C10 theorem: a parsed object holding only
a payments collection is completed with an empty banned-id
collection. -/
theorem load_db_fills_missing_collections_witness :
    hasCollection (load_db (.parsed (.jobj [("payments", .jarr [.jstr "p1"])]))) "banned_ids" = true
    ∧ jGet (load_db (.parsed (.jobj [("payments", .jarr [.jstr "p1"])]))) "banned_ids"
        = some (.jarr []) := by
  have h := load_db_fills_missing_collections (.parsed (.jobj [("payments", .jarr [.jstr "p1"])]))
    (fun v hv => by cases hv; rfl)
  exact ⟨h.1 "banned_ids" (by decide),
    h.2 [("payments", .jarr [.jstr "p1"])] "banned_ids" rfl (by decide) rfl⟩

end Relay
